import Mathlib

/-!
Verification of the book2game recommendation pipeline.

This file gives a shallow embedding, in Lean 4, of the core services of the
repository (`app/services/ai_game_generator.py`, `app/services/recommendation_service.py`,
`app/services/cache_service.py`) and proves or refutes the frozen claims about them.

Modelling conventions:
* Python `float` values are modelled as `ℚ` (exact rational arithmetic);
  all concrete values used in witnesses are dyadic, where float and rational
  arithmetic agree.
* Python strings are Lean `String` / `List Char`; `str.lower()` is modelled as
  ASCII lowercasing (the repository only manipulates ASCII game/genre names).
* `list(set(xs))` (Python set iteration order is unspecified) is modelled as
  first-occurrence deduplication; every claim proved below is insensitive to
  the particular order chosen.
* Fallible Python code (exceptions) is modelled with `Except` / `Option`.
* The MD5 digest used by `_generate_unique_id` is implemented bit-for-bit.
-/

set_option maxRecDepth 100000

/- The Batteries rational-number operations are `@[irreducible]`, which
blocks `decide` from evaluating concrete scores; restore definitional
unfolding for them in this file. -/
attribute [local semireducible] Rat.ofScientific Rat.mul Rat.inv Rat.add Rat.sub

deriving instance DecidableEq for Except

/-! ## Basic Python string utilities -/

/-- Python whitespace characters stripped by `str.strip()` (ASCII range). -/
def isPyWhitespace (c : Char) : Bool :=
  c = ' ' ∨ c = '\t' ∨ c = '\n' ∨ c = '\x0b' ∨ c = '\x0c' ∨ c = '\r'

/-- `str.strip()` on a list of characters. -/
def pyStrip (cs : List Char) : List Char :=
  ((cs.dropWhile isPyWhitespace).reverse.dropWhile isPyWhitespace).reverse

/-- `str.lstrip(chars)`: drop leading characters that belong to `chars`. -/
def pyLstrip (cs : List Char) (chars : List Char) : List Char :=
  cs.dropWhile (fun c => chars.contains c)

/-- ASCII lowercasing of one character (model of Python `str.lower()` per char). -/
def toLowerAscii (c : Char) : Char :=
  if 65 ≤ c.toNat ∧ c.toNat ≤ 90 then Char.ofNat (c.toNat + 32) else c

/-- `str.lower()` on a list of characters. -/
def pyLower (cs : List Char) : List Char := cs.map toLowerAscii

/-- `str.lower()` on a `String`. -/
def pyLowerStr (s : String) : String := String.mk (pyLower s.data)

/-- `str.strip()` on a `String`. -/
def pyStripStr (s : String) : String := String.mk (pyStrip s.data)

/-- Split a character list on a separator character (Python `str.split(sep)`
with a one-character separator: `"".split(sep) = [""]`, empty pieces kept). -/
def splitOnChar (sep : Char) : List Char → List (List Char)
  | [] => [[]]
  | c :: rest =>
    let r := splitOnChar sep rest
    if c = sep then [] :: r
    else match r with
      | [] => [[c]]
      | p :: ps => (c :: p) :: ps

/-- Does `needle` occur as a prefix of `hay`? -/
def listIsPrefix : List Char → List Char → Bool
  | [], _ => true
  | _ :: _, [] => false
  | n :: ns, h :: hs => n = h ∧ listIsPrefix ns hs

/-- Python `needle in hay` substring containment. -/
def containsSub (hay needle : List Char) : Bool :=
  if listIsPrefix needle hay then true
  else match hay with
    | [] => false
    | _ :: t => containsSub t needle

/-- First-occurrence deduplication: model of Python `list(set(xs))`
(set iteration order is unspecified in Python; the claims below are
insensitive to the order, see file header). -/
def pyDedupAux : List String → List String → List String
  | [], _ => []
  | x :: xs, seen =>
    if seen.contains x then pyDedupAux xs seen
    else x :: pyDedupAux xs (x :: seen)

/-- First-occurrence deduplication (entry point). -/
def pyDedup (xs : List String) : List String := pyDedupAux xs []

/-- `", ".join(xs)` -/
def joinComma : List String → String
  | [] => ""
  | [x] => x
  | x :: xs => x ++ ", " ++ joinComma xs

/-! ## Python numeric helpers -/

/-- Python `int(x)` on a float: truncation toward zero. -/
def pyInt (q : ℚ) : ℤ := if q < 0 then -(Int.floor (-q)) else Int.floor q

/-- Round half to even to an integer (the rounding used by Python `round`). -/
def roundHalfEven (q : ℚ) : ℤ :=
  if q - (Int.floor q : ℚ) < 1/2 then Int.floor q
  else if 1/2 < q - (Int.floor q : ℚ) then Int.floor q + 1
  else if Even (Int.floor q) then Int.floor q else Int.floor q + 1

/-- Python `round(x, 2)` (model on exact rationals). -/
def pyRound2 (q : ℚ) : ℚ := (roundHalfEven (q * 100) : ℚ) / 100

/-- Numeric value of a list of decimal digit characters. -/
def natOfDigits (cs : List Char) : Nat :=
  cs.foldl (fun a c => a * 10 + (c.toNat - 48)) 0

/-- Python `float(s)` restricted to strings over the alphabet `[0-9.]`
(the only strings reachable from the regex group `[\d.]+`): it succeeds
iff the string contains at most one dot and at least one digit. -/
def pyFloatDigitsDots (cs : List Char) : Option ℚ :=
  if (cs.filter (· = '.')).length ≤ 1 ∧ (cs.filter Char.isDigit).length ≥ 1 then
    match splitOnChar '.' cs with
    | [ip] => some ((natOfDigits ip : ℤ) : ℚ)
    | [ip, fp] => some (((natOfDigits ip : ℤ) : ℚ) +
        ((natOfDigits fp : ℤ) : ℚ) / ((10 : ℚ) ^ fp.length))
    | _ => none
  else none

/-! ## MD5 (bit-for-bit model of `hashlib.md5`) -/

/-- Truncate to 32 bits. -/
def u32 (n : Nat) : Nat := n % 4294967296

/-- 32-bit complement (valid for inputs `< 2^32`). -/
def not32 (x : Nat) : Nat := 4294967295 - x

/-- 32-bit left rotation (inputs `< 2^32`, `s < 32`): the two shifted parts
occupy disjoint bit ranges, so their sum is their bitwise or. -/
def rotl32 (x s : Nat) : Nat := u32 (x * 2 ^ s) + x / 2 ^ (32 - s)

/-- MD5 per-round shift amounts. -/
def md5S : List Nat :=
  [7, 12, 17, 22, 7, 12, 17, 22, 7, 12, 17, 22, 7, 12, 17, 22,
   5, 9, 14, 20, 5, 9, 14, 20, 5, 9, 14, 20, 5, 9, 14, 20,
   4, 11, 16, 23, 4, 11, 16, 23, 4, 11, 16, 23, 4, 11, 16, 23,
   6, 10, 15, 21, 6, 10, 15, 21, 6, 10, 15, 21, 6, 10, 15, 21]

/-- MD5 per-round additive constants. -/
def md5K : List Nat :=
  [3614090360, 3905402710, 606105819, 3250441966,
   4118548399, 1200080426, 2821735955, 4249261313,
   1770035416, 2336552879, 4294925233, 2304563134,
   1804603682, 4254626195, 2792965006, 1236535329,
   4129170786, 3225465664, 643717713, 3921069994,
   3593408605, 38016083, 3634488961, 3889429448,
   568446438, 3275163606, 4107603335, 1163531501,
   2850285829, 4243563512, 1735328473, 2368359562,
   4294588738, 2272392833, 1839030562, 4259657740,
   2763975236, 1272893353, 4139469664, 3200236656,
   681279174, 3936430074, 3572445317, 76029189,
   3654602809, 3873151461, 530742520, 3299628645,
   4096336452, 1126891415, 2878612391, 4237533241,
   1700485571, 2399980690, 4293915773, 2240044497,
   1873313359, 4264355552, 2734768916, 1309151649,
   4149444226, 3174756917, 718787259, 3951481745]

/-- One MD5 round, acting on the state `(a, b, c, d)` with message words `m`. -/
def md5Round (m : List Nat) (st : Nat × Nat × Nat × Nat) (i : Nat) :
    Nat × Nat × Nat × Nat :=
  let (a, b, c, d) := st
  let fg : Nat × Nat :=
    if i < 16 then ((b.land c).lor ((not32 b).land d), i)
    else if i < 32 then ((d.land b).lor ((not32 d).land c), (5 * i + 1) % 16)
    else if i < 48 then ((b.xor c).xor d, (3 * i + 5) % 16)
    else (c.xor (b.lor (not32 d)), (7 * i) % 16)
  let f := u32 (fg.1 + a + md5K.getD i 0 + m.getD fg.2 0)
  (d, u32 (b + rotl32 f (md5S.getD i 0)), b, c)

/-- Decode 64 bytes into 16 little-endian 32-bit words. -/
def md5Words (chunk : List Nat) : List Nat :=
  (List.range 16).map fun j =>
    chunk.getD (4 * j) 0 + chunk.getD (4 * j + 1) 0 * 256 +
    chunk.getD (4 * j + 2) 0 * 65536 + chunk.getD (4 * j + 3) 0 * 16777216

/-- Process one 64-byte chunk. -/
def md5Chunk (st : Nat × Nat × Nat × Nat) (chunk : List Nat) :
    Nat × Nat × Nat × Nat :=
  let m := md5Words chunk
  let (a, b, c, d) := (List.range 64).foldl (md5Round m) st
  (u32 (st.1 + a), u32 (st.2.1 + b), u32 (st.2.2.1 + c), u32 (st.2.2.2 + d))

/-- Split a byte list into 64-byte chunks (structural recursion on a fuel
that bounds the number of chunks; each step drops 64 > 0 bytes, so a fuel
equal to the length never runs out). -/
def chunks64Aux : Nat → List Nat → List (List Nat)
  | 0, _ => []
  | _, [] => []
  | fuel + 1, b :: rest => ((b :: rest).take 64) :: chunks64Aux fuel ((b :: rest).drop 64)

def chunks64 (l : List Nat) : List (List Nat) := chunks64Aux l.length l

/-- MD5 padding: `0x80`, zeros to 56 mod 64, then the 64-bit little-endian
bit length. -/
def md5Pad (msg : List Nat) : List Nat :=
  let len := msg.length
  let z := (119 - (len % 64)) % 64
  let bits := (len * 8) % (2 ^ 64)
  msg ++ [128] ++ List.replicate z 0 ++
    (List.range 8).map (fun j => bits / 256 ^ j % 256)

/-- The 16 MD5 digest bytes of a byte message. -/
def md5Digest (msg : List Nat) : List Nat :=
  let (a, b, c, d) :=
    (chunks64 (md5Pad msg)).foldl md5Chunk
      (1732584193, 4023233417, 2562383102, 271733878)
  [a, b, c, d].flatMap fun w => (List.range 4).map fun j => w / 256 ^ j % 256

/-- `int(hexdigest[:7], 16)`: the value of the first 7 hex characters of the
digest, i.e. the first 7 nibbles (high nibble first within each byte). -/
def md5First7Hex (msg : List Nat) : Nat :=
  (((md5Digest msg).flatMap fun b => [b / 16, b % 16]).take 7).foldl
    (fun a n => a * 16 + n) 0

/-- UTF-8 encoding of one character. -/
def utf8Char (c : Char) : List Nat :=
  let n := c.toNat
  if n < 128 then [n]
  else if n < 2048 then [192 + n / 64, 128 + n % 64]
  else if n < 65536 then [224 + n / 4096, 128 + n / 64 % 64, 128 + n % 64]
  else [240 + n / 262144, 128 + n / 4096 % 64, 128 + n / 64 % 64, 128 + n % 64]

/-- `str.encode()` (UTF-8 bytes of a string). -/
def utf8Bytes (s : String) : List Nat := s.data.flatMap utf8Char

/-! ## A small backtracking regex engine (model of Python `re`)

Only the combinators needed by the repository's patterns are provided:
character classes, sequencing, alternation, greedy and lazy star, capture
groups, and the `$` anchor. Matching is anchored at the start (Python
`re.match`); backtracking order follows Python (`alt` prefers the left
branch, greedy star prefers longer, lazy star prefers shorter), so the
engine reproduces Python's leftmost match and group contents. A fuel
parameter bounds the recursion depth; it is sized so that it is never
exhausted (depth is at most about pattern size times input length). -/

inductive RE where
  | eps : RE
  | sym : (Char → Bool) → RE
  | seq : RE → RE → RE
  | alt : RE → RE → RE
  | star : Bool → RE → RE
  | group : Nat → RE → RE
  | eol : RE

/-- Node count of a pattern (used to size the fuel). -/
def reSize : RE → Nat
  | .eps => 1
  | .sym _ => 1
  | .seq a b => reSize a + reSize b + 1
  | .alt a b => reSize a + reSize b + 1
  | .star _ a => reSize a + 1
  | .group _ a => reSize a + 1
  | .eol => 1

/-- Captured groups: association list, most recent binding first. -/
abbrev Caps := List (Nat × List Char)

/-- CPS backtracking matcher. `k` receives the rest of the input and the
captures accumulated so far. -/
def reMatch (fuel : Nat) (r : RE) (cs : List Char) (caps : Caps)
    (k : List Char → Caps → Option (List Char × Caps)) :
    Option (List Char × Caps) :=
  match fuel with
  | 0 => none
  | fuel + 1 =>
    match r with
    | .eps => k cs caps
    | .eol => match cs with | [] => k cs caps | _ :: _ => none
    | .sym p =>
      match cs with
      | [] => none
      | c :: rest => if p c then k rest caps else none
    | .seq a b => reMatch fuel a cs caps (fun cs2 caps2 => reMatch fuel b cs2 caps2 k)
    | .alt a b =>
      match reMatch fuel a cs caps k with
      | some res => some res
      | none => reMatch fuel b cs caps k
    | .group n a =>
      reMatch fuel a cs caps (fun cs2 caps2 =>
        k cs2 ((n, cs.take (cs.length - cs2.length)) :: caps2))
    | .star greedy a =>
      if greedy then
        match reMatch fuel a cs caps (fun cs2 caps2 =>
            if cs2.length < cs.length then reMatch fuel (.star greedy a) cs2 caps2 k
            else none) with
        | some res => some res
        | none => k cs caps
      else
        match k cs caps with
        | some res => some res
        | none =>
          reMatch fuel a cs caps (fun cs2 caps2 =>
            if cs2.length < cs.length then reMatch fuel (.star greedy a) cs2 caps2 k
            else none)

/-- Anchored match at the start of `cs` (Python `re.match`): returns the
unconsumed rest and the captures. -/
def reMatchTop (r : RE) (cs : List Char) : Option (List Char × Caps) :=
  reMatch ((reSize r + 1) * (cs.length + 2) + 1) r cs [] (fun rest caps => some (rest, caps))

/-- Look up the most recent binding of group `n`. -/
def capGet (caps : Caps) (n : Nat) : List Char :=
  match caps.find? (fun p => p.1 = n) with
  | some p => p.2
  | none => []

/-- Pattern combinators. -/
def reLitChar (c : Char) : RE := .sym (· = c)

/-- Case-insensitive literal character (for patterns compiled with
`re.IGNORECASE`). -/
def reLitCharCI (c : Char) : RE := .sym (fun x => toLowerAscii x = toLowerAscii c)

def reCat (rs : List RE) : RE := rs.foldr RE.seq .eps

def reLit (s : String) : RE := reCat (s.data.map reLitChar)

def reLitCI (s : String) : RE := reCat (s.data.map reLitCharCI)

/-- `.` (any character except a newline). -/
def reAny : RE := .sym (· ≠ '\n')

/-- `\d` -/
def reDigit : RE := .sym Char.isDigit

/-- `\s` (Python ASCII whitespace class). -/
def reWs : RE := .sym isPyWhitespace

/-- `X+` greedy. -/
def rePlus (a : RE) : RE := .seq a (.star true a)

/-- `X+?` lazy. -/
def rePlusLazy (a : RE) : RE := .seq a (.star false a)

/-- The structured-line pattern of `_parse_structured_games`
(`re.IGNORECASE`):
`^\d+\.\s*(.+?)\s*\((\d{4})\)\s*-\s*Rating:\s*([\d.]+).*?-\s*Genre:\s*([^-]+)\s*-\s*(.+)$` -/
def mainRE : RE := reCat
  [rePlus reDigit, reLitChar '.', .star true reWs,
   .group 1 (rePlusLazy reAny), .star true reWs,
   reLitChar '(', .group 2 (reCat [reDigit, reDigit, reDigit, reDigit]), reLitChar ')',
   .star true reWs, reLitChar '-', .star true reWs, reLitCI "Rating:",
   .star true reWs, .group 3 (rePlus (.sym (fun c => c.isDigit ∨ c = '.'))),
   .star false reAny, reLitChar '-', .star true reWs, reLitCI "Genre:",
   .star true reWs, .group 4 (rePlus (.sym (· ≠ '-'))),
   .star true reWs, reLitChar '-', .star true reWs,
   .group 5 (rePlus reAny), .eol]

/-- The "introductory line" patterns (matched against the lowercased line):
`^here are \d+ (popular|real|video games)`, `^i (recommend|suggest|present)`,
`^below (is|are) (some|the)`, `^based on your`. -/
def ignoreREs : List RE :=
  [reCat [reLit "here are ", rePlus reDigit, reLit " ",
          .alt (reLit "popular") (.alt (reLit "real") (reLit "video games"))],
   reCat [reLit "i ",
          .alt (reLit "recommend") (.alt (reLit "suggest") (reLit "present"))],
   reCat [reLit "below ", .alt (reLit "is") (reLit "are"), reLit " ",
          .alt (reLit "some") (reLit "the")],
   reLit "based on your"]

/-- `^([^(]+)` — the name-extraction pattern of the fallback branch. -/
def nameRE : RE := .group 1 (rePlus (.sym (· ≠ '(')))

/-- `re.sub(pat, r"\1", text)` specialised to the markdown-stripping patterns:
scan left to right, replace each non-overlapping leftmost match by the
contents of group 1. The fuel equals the input length; every match of the
patterns used consumes at least one character, so the fuel never runs out. -/
def reSubAux : Nat → RE → List Char → List Char
  | 0, _, cs => cs
  | _, _, [] => []
  | fuel + 1, pat, c :: cs =>
    match reMatchTop pat (c :: cs) with
    | some (rest, caps) =>
      if rest.length < (c :: cs).length then
        capGet caps 1 ++ reSubAux fuel pat rest
      else c :: reSubAux fuel pat cs
    | none => c :: reSubAux fuel pat cs

def reSub (pat : RE) (cs : List Char) : List Char := reSubAux (cs.length + 1) pat cs

/-- `AIGameGenerator._clean_markdown`: strip `**x**`, `*x*`, `__x__`, `_x_`
markdown emphasis (in this order), then `strip()`. -/
def clean_markdown (cs : List Char) : List Char :=
  let s1 := reSub (reCat [reLitChar '*', reLitChar '*',
    .group 1 (rePlusLazy reAny), reLitChar '*', reLitChar '*']) cs
  let s2 := reSub (reCat [reLitChar '*', .group 1 (rePlusLazy reAny), reLitChar '*']) s1
  let s3 := reSub (reCat [reLitChar '_', reLitChar '_',
    .group 1 (rePlusLazy reAny), reLitChar '_', reLitChar '_']) s2
  let s4 := reSub (reCat [reLitChar '_', .group 1 (rePlusLazy reAny), reLitChar '_']) s3
  pyStrip s4

/-! ## Data model -/

/-- A generated game record (the dict built by `AIGameGenerator`).
`rawg_id = none` models the *absence* of the `"rawg_id"` key: the dict built
by `_create_game_from_llama_data` has the key, the dict built by
`_create_game_from_real_name` does not. -/
structure Game where
  id : Nat
  rawg_id : Option Nat
  name : String
  slug : String
  description : String
  released : String
  rating : ℚ
  ratings_count : ℤ
  metacritic : Option ℤ
  playtime : Option Nat
  genres : String
  tags : String
  platforms : Option String
  developers : Option String
  publishers : Option String
  image_url : Option String
  website : Option String
deriving Repr, DecidableEq

/-- Errors raised by the pipeline (each constructor corresponds to one
`raise` site or uncaught exception in the source). -/
inductive Err where
  | floatValueError (s : String)
  | emptyLlamaResponse
  | parseFailure
  | generateCountFailure (count : Nat)
  | bookNotFoundLocal (book_id : Nat)
  | bookNotFoundProvider (gid : String)
  | noSuitableGames
  | attributeError
deriving Repr, DecidableEq

/-! ## `AIGameGenerator` (`app/services/ai_game_generator.py`) -/

/-- `AIGameGenerator._generate_unique_id`: lowercase the name, MD5, take the
first 7 hex characters as an integer, reduce modulo `2147483647`. -/
def generate_unique_id (game_name : String) : Nat :=
  md5First7Hex (utf8Bytes (pyLowerStr game_name)) % 2147483647

/-- `AIGameGenerator.TAG_TO_GENRE_MAP` (insertion order). -/
def TAG_TO_GENRE_MAP : List (String × List String) :=
  [("fantasy", ["RPG", "Action RPG", "Adventure"]),
   ("sci-fi", ["Shooter", "Action", "RPG"]),
   ("action", ["Action", "Shooter", "Fighting"]),
   ("horror", ["Horror", "Survival", "Action"]),
   ("adventure", ["Adventure", "Action-Adventure", "Platformer"]),
   ("open-world", ["Open World", "RPG", "Action"]),
   ("story-rich", ["Narrative", "Adventure", "RPG"]),
   ("magic", ["RPG", "Fantasy", "Action RPG"]),
   ("shooter", ["Shooter", "FPS", "Action"]),
   ("strategy", ["Strategy", "Simulation", "Management"])]

def tagGenreLookup (t : String) : Option (List String) :=
  (TAG_TO_GENRE_MAP.find? (fun p => p.1 = t)).map (·.2)

/-- `AIGameGenerator._select_primary_category`. -/
def select_primary_category (tags : List String) : String :=
  match ["fantasy", "sci-fi", "horror", "action", "adventure"].find?
      (fun c => tags.contains c) with
  | some c => c
  | none => "adventure"

/-- `AIGameGenerator._generate_genres` (`set` modelled as first-occurrence
deduplication, see file header). -/
def generate_genres (tags : List String) (primary_category : String) : List String :=
  let fromPrimary := ((tagGenreLookup primary_category).getD []).take 2
  let fromTags := (tags.take 3).filterMap fun t => (tagGenreLookup t).map (·.headD "")
  (pyDedup (fromPrimary ++ fromTags)).take 3

/-- `name.lower().replace(" ", "-").replace(":", "").replace("'", "").replace(",", "")` -/
def slugOf (name : String) : String :=
  String.mk (((pyLower name.data).map fun c => if c = ' ' then '-' else c).filter
    fun c => c ≠ ':' ∧ c ≠ Char.ofNat 39 ∧ c ≠ ',')

/-- `AIGameGenerator._create_game_from_llama_data`. -/
def create_game_from_llama_data (name year : String) (rating : ℚ)
    (genre description : String) (tags : List String) : Game :=
  let game_id := generate_unique_id name
  let normalized_rating := min (max rating 0) 5
  let metacritic := if normalized_rating > 0 then some (pyInt (normalized_rating * 20)) else none
  let ratings_count := if normalized_rating > 0 then pyInt (normalized_rating * 50000) else 10000
  { id := game_id, rawg_id := some game_id, name := name, slug := slugOf name,
    description := description, released := year ++ "-01-01",
    rating := pyRound2 normalized_rating, ratings_count := ratings_count,
    metacritic := metacritic, playtime := none, genres := genre,
    tags := joinComma (tags.take 5), platforms := none, developers := none,
    publishers := none, image_url := none, website := none }

/-- `AIGameGenerator._create_game_from_real_name`. The two random draws
(`round(random.uniform(3.8, 4.9), 2)` and `random.randint(2015, 2024)`) are
modelled by an oracle `rng` indexed by the number of fallback games created
so far; the dict built here has no `"rawg_id"` key (`rawg_id := none`). -/
def create_game_from_real_name (rng : Nat → ℚ × Nat) (k : Nat)
    (name : String) (tags : List String) : Game :=
  let game_id := generate_unique_id name
  let primary_category := select_primary_category tags
  let rating := (rng k).1
  let year := (rng k).2
  let genres := generate_genres tags primary_category
  let description := name ++ " is a critically acclaimed " ++ joinComma genres ++
    " game that combines " ++ joinComma (tags.take 3) ++ " themes."
  { id := game_id, rawg_id := none, name := name, slug := slugOf name,
    description := description, released := toString year ++ "-01-01",
    rating := rating, ratings_count := pyInt (rating * 40000),
    metacritic := some (pyInt (rating * 20)), playtime := none,
    genres := joinComma genres, tags := joinComma (tags.take 5),
    platforms := none, developers := none, publishers := none,
    image_url := none, website := none }

/-- The characters stripped by `line.lstrip("0123456789.-• ")`. -/
def lstripChars : List Char := "0123456789.-• ".data

/-- Does `name` start with one of the given lowercase literals? -/
def startsWithAny (cs : List Char) (ls : List String) : Bool :=
  ls.any fun p => listIsPrefix p.data cs

/-- The line loop of `AIGameGenerator._parse_structured_games`.
`k` counts the fallback-constructor calls made so far (it indexes `rng`).
A `ValueError` from `float(match.group(3))` aborts the whole call:
it is returned as `.error (.floatValueError _)`. -/
def parseLines (rng : Nat → ℚ × Nat) (tags : List String) :
    List (List Char) → Nat → Except Err (List Game)
  | [], _ => .ok []
  | line :: rest, k =>
    let l := pyStrip line
    if l.length = 0 ∨ l.length < 10 then parseLines rng tags rest k
    else if (ignoreREs.any fun r => (reMatchTop r (pyLower l)).isSome) then
      parseLines rng tags rest k
    else
      match reMatchTop mainRE l with
      | some (_, caps) =>
        match pyFloatDigitsDots (capGet caps 3) with
        | none => .error (.floatValueError (String.mk (capGet caps 3)))
        | some rating =>
          let name := String.mk (clean_markdown (pyStrip (capGet caps 1)))
          let year := String.mk (capGet caps 2)
          let genre := String.mk (clean_markdown (pyStrip (capGet caps 4)))
          let description := String.mk (clean_markdown (pyStrip (capGet caps 5)))
          let g := create_game_from_llama_data name year (min rating 5) genre
            description tags
          match parseLines rng tags rest k with
          | .error e => .error e
          | .ok gs => .ok (g :: gs)
      | none =>
        let cleaned := pyStrip (pyLstrip l lstripChars)
        if cleaned.length < 3 ∨ cleaned.contains ':' then parseLines rng tags rest k
        else if cleaned.length ≠ 0 ∧ cleaned.length > 2 then
          match reMatchTop nameRE cleaned with
          | none => parseLines rng tags rest k
          | some (_, caps) =>
            let name := String.mk (clean_markdown (pyStrip (capGet caps 1)))
            if name.length > 3 ∧
                ¬ startsWithAny (pyLower name.data) ["here", "below", "i recommend"] then
              let g := create_game_from_real_name rng k name tags
              match parseLines rng tags rest (k + 1) with
              | .error e => .error e
              | .ok gs => .ok (g :: gs)
            else parseLines rng tags rest k
        else parseLines rng tags rest k

/-- `AIGameGenerator._parse_structured_games`. -/
def parse_structured_games (rng : Nat → ℚ × Nat) (ai_response : String)
    (tags : List String) : Except Err (List Game) :=
  parseLines rng tags (splitOnChar '\n' (pyStrip ai_response.data)) 0

/-- `AIGameGenerator._generate_with_llama`. The LLM chat-completion call is
an oracle: `llm` is the text returned by
`huggingface_service.generate_text_with_llama` for the prompt built from
`tags` and `count` (`none` models `None`). `if not result` raises on both
`None` and the empty string. -/
def generate_with_llama (llm : Option String) (rng : Nat → ℚ × Nat)
    (tags : List String) (count : Nat) : Except Err (List Game) :=
  match llm with
  | none => .error .emptyLlamaResponse
  | some result =>
    if result = "" then .error .emptyLlamaResponse
    else
      match parse_structured_games rng result tags with
      | .error e => .error e
      | .ok [] => .error .parseFailure
      | .ok games => .ok (games.take count)

/-- `AIGameGenerator.generate_games` (`book_title` and `book_description`
are accepted but only logged in the source). -/
def generate_games (llm : Option String) (rng : Nat → ℚ × Nat)
    (tags : List String) (book_title book_description : String) (count : Nat) :
    Except Err (List Game) :=
  match generate_with_llama llm rng tags count with
  | .error e => .error e
  | .ok games =>
    if games.length = 0 ∨ games.length < count then .error (.generateCountFailure count)
    else .ok games

/-! ## `RecommendationService` (`app/services/recommendation_service.py`) -/

/-- The `volumeInfo` sub-dict of a Google Books volume; `none` models a
missing key (the source reads every key with `.get` and a default). -/
structure VolumeInfo where
  title : Option String
  authors : Option (List String)
  description : Option String
  categories : Option (List String)
  publishedDate : Option String
  language : Option String
  pageCount : Option Nat
deriving Repr, DecidableEq

/-- A Google Books volume (`book_data`). -/
structure BookData where
  id : Option String
  volumeInfo : VolumeInfo
deriving Repr, DecidableEq

/-- The features dict built by `extract_book_features`. -/
structure Features where
  title : String
  authors : List String
  description : String
  categories : List String
  published_year : Option String
  language : String
  page_count : Option Nat
deriving Repr, DecidableEq

/-- `RecommendationService.extract_book_features`. -/
def extract_book_features (book_data : BookData) : Features :=
  let vi := book_data.volumeInfo
  { title := vi.title.getD "", authors := vi.authors.getD [],
    description := vi.description.getD "",
    categories := vi.categories.getD [],
    published_year :=
      match vi.publishedDate with
      | none => none
      | some pd => if pd = "" then none else some (String.mk (pd.data.take 4)),
    language := vi.language.getD "en",
    page_count := vi.pageCount }

/-- `RecommendationService.GENRE_TAG_MAPPING` (insertion order). -/
def GENRE_TAG_MAPPING : List (String × List String) :=
  [("fantasy", ["fantasy", "magic", "dragons", "medieval"]),
   ("science fiction", ["sci-fi", "space", "futuristic", "cyberpunk"]),
   ("adventure", ["adventure", "exploration", "open-world"]),
   ("mystery", ["mystery", "detective", "crime", "investigation"]),
   ("thriller", ["thriller", "suspense", "psychological"]),
   ("horror", ["horror", "survival-horror", "dark", "gore"]),
   ("romance", ["romance", "dating-sim", "story-rich"]),
   ("historical", ["historical", "realistic", "war"]),
   ("action", ["action", "combat", "fast-paced"]),
   ("drama", ["drama", "story-rich", "emotional"]),
   ("comedy", ["comedy", "funny", "casual"]),
   ("dystopian", ["post-apocalyptic", "dystopian", "survival"]),
   ("post-apocalyptic", ["post-apocalyptic", "survival", "zombies"]),
   ("superhero", ["superhero", "super-powers", "comic-book"]),
   ("crime", ["crime", "mafia", "heist"]),
   ("war", ["war", "military", "tactical"]),
   ("magic", ["magic", "spells", "wizards"]),
   ("dark", ["dark", "dark-fantasy", "mature"]),
   ("epic", ["epic", "grand-strategy", "story-rich"])]

/-- The keyword table of the third tier of `map_genres_to_tags`. -/
def keywordsMap : List (String × List String) :=
  [("technology", ["sci-fi", "cyberpunk", "simulation"]),
   ("business", ["strategy", "management", "simulation"]),
   ("war", ["war", "strategy", "military"]),
   ("history", ["historical", "strategy"]),
   ("space", ["space", "sci-fi", "exploration"]),
   ("crime", ["crime", "action", "thriller"]),
   ("spy", ["stealth", "action", "thriller"]),
   ("detective", ["mystery", "detective", "investigation"])]

/-- Second tier of `map_genres_to_tags`: scan the genre table against the
combined title+description text, take at most 2 tags per matched genre,
stop once 10 tags are collected. -/
def tier2Loop : List (String × List String) → List Char → List String → List String
  | [], _, acc => acc
  | (g, gt) :: rest, text, acc =>
    if containsSub text g.data then
      let acc2 := acc ++ gt.take 2
      if acc2.length ≥ 10 then acc2 else tier2Loop rest text acc2
    else tier2Loop rest text acc

/-- `RecommendationService.map_genres_to_tags`. -/
def map_genres_to_tags (book_features : Features) : List String :=
  let tags0 := book_features.categories.foldl
    (fun acc category =>
      match GENRE_TAG_MAPPING.find? (fun p => containsSub (pyLower category.data) p.1.data) with
      | some p => acc ++ p.2
      | none => acc) []
  let tags1 := pyDedup tags0
  let combined := pyLower book_features.title.data ++ ' ' ::
    pyLower book_features.description.data
  let tags2 := if tags1.isEmpty then tier2Loop GENRE_TAG_MAPPING combined [] else tags1
  let tags3 :=
    if tags2.isEmpty then
      let t := keywordsMap.foldl
        (fun acc p => if containsSub combined p.1.data then acc ++ p.2.take 2 else acc) []
      if t.isEmpty then ["story-rich", "adventure", "singleplayer"] else t
    else tags2
  (pyDedup tags3).take 10

/-- The shapes the `"tags"` entry of a game dict can have when it reaches
`calculate_similarity_score` (string, list, or anything else). -/
inductive TagsVal where
  | str (s : String)
  | list (l : List String)
  | other
deriving Repr, DecidableEq

/-- The fields of a game dict read by `calculate_similarity_score`
(`none` models both a missing key and `None`). -/
structure ScoreGame where
  rating : Option ℚ
  tags : TagsVal
  metacritic : Option ℤ
deriving Repr, DecidableEq

/-- The candidate-tag list derived inside `calculate_similarity_score`. -/
def gameTagsOf : TagsVal → List String
  | .str s => (splitOnChar ',' s.data).map (fun p => String.mk (pyStrip p))
  | .list l => if l.length > 0 then l else []
  | .other => []

/-- `RecommendationService.calculate_similarity_score` (the `book_features`
argument is accepted but never read by the source body). -/
def calculate_similarity_score (game : ScoreGame) (book_features : Features)
    (matched_tags : List String) : ℚ :=
  let score0 : ℚ := 0
  let game_rating := game.rating.getD 0
  let score1 := if game_rating > 0 then score0 + game_rating / 5 * 0.3 else score0
  let game_tags := gameTagsOf game.tags
  let score2 :=
    if matched_tags ≠ [] ∧ matched_tags.length > 0 then
      let tag_score : ℚ :=
        ((matched_tags.filter (fun t => game_tags.contains t)).length : ℚ) /
          (matched_tags.length : ℚ)
      score1 + min tag_score 1 * 0.5
    else score1
  let metacritic := game.metacritic.getD 0
  let score3 :=
    if metacritic > 0 then score2 + min ((metacritic : ℚ) / 100) 1 * 0.2 else score2
  pyRound2 (min score3 1)

/-! ## Orchestrator state machine (`generate_recommendation`) -/

/-- One entry of the `game_recommendations` list. -/
structure ScoredRec where
  game_id : Nat
  name : String
  score : ℚ
  rating : ℚ
  image : Option String
deriving Repr, DecidableEq

/-- A persisted `Recommendation` row (the `games` JSON payload is modelled
as the serialized `(game_id, score)` list). -/
structure RecRow where
  user_id : Nat
  book_id : Nat
  games : List (Nat × ℚ)
  ai_generated : Bool
  similarity_score : Option ℚ
  processing_time_ms : Option Nat
deriving Repr, DecidableEq

/-- The dict stored in the full-recommendation cache. -/
structure CacheVal where
  games : List ScoredRec
  games_json : List (Nat × ℚ)
  ai_generated : Bool
  similarity_score : ℚ
  processing_time_ms : Nat
  tags_used : List String
deriving Repr, DecidableEq

/-- A `Book` row of the local database. -/
structure BookRow where
  id : Nat
  google_books_id : String
deriving Repr, DecidableEq

/-- The output of `google_books_service.parse_book_data` (the fields the
orchestrator passes through to its caller). -/
structure ParsedBook where
  google_books_id : Option String
  title : Option String
  authors : String
  published_date : Option String
  description : Option String
  page_count : Option Nat
deriving Repr, DecidableEq

/-- `google_books_service.parse_book_data`. -/
def parse_book_data (volume_data : BookData) : ParsedBook :=
  let vi := volume_data.volumeInfo
  { google_books_id := volume_data.id, title := vi.title,
    authors := joinComma (vi.authors.getD []),
    published_date := vi.publishedDate, description := vi.description,
    page_count := vi.pageCount }

/-- The environment of one `generate_recommendation` call: the local book
table, the Google Books provider, the LLM response, the randomness oracle
for fallback candidates, whether each per-candidate `get_or_create_game`
succeeds or raises, whether the final cache write succeeds, and the wall
clock. -/
structure Env where
  books : Nat → Option BookRow
  google : String → Option BookData
  llm : Option String
  rng : Nat → ℚ × Nat
  saveOk : Nat → Bool
  cacheSetOk : Bool
  elapsedMs : Nat

/-- Mutable state visible to one call: persisted recommendation rows, the
list of attempted game upserts (in order), the game rows present in the
database (by `rawg_id`), and the recommendation cache. -/
structure St where
  recs : List RecRow
  attempts : List Nat
  savedGames : List Nat
  cache : List (String × CacheVal)
deriving Repr, DecidableEq

def cacheLookup (c : List (String × CacheVal)) (k : String) : Option CacheVal :=
  (c.find? (fun p => p.1 = k)).map (·.2)

def cacheInsert (c : List (String × CacheVal)) (k : String) (v : CacheVal) :
    List (String × CacheVal) :=
  (c.filter (fun p => p.1 ≠ k)) ++ [(k, v)]

def cacheKeyFor (book_id : Nat) : String := "recommendation:book:" ++ toString book_id

/-- The result dict returned by `generate_recommendation`. -/
structure RecResult where
  recommendation : RecRow
  book_data : ParsedBook
  games : List ScoredRec
deriving Repr, DecidableEq

/-- `RecommendationService.search_similar_games`. -/
def search_similar_games (env : Env) (tags : List String)
    (book_title book_description : String) (page_size : Nat) :
    Except Err (List Game) :=
  if tags.isEmpty then .ok []
  else generate_games env.llm env.rng tags book_title book_description page_size

/-- View a generated game dict through the fields read by the scorer. -/
def scoreViewOf (g : Game) : ScoreGame :=
  { rating := some g.rating, tags := .str g.tags, metacritic := g.metacritic }

/-- The scoring/filter loop (step "7. Calculate similarity scores"): score
the first 10 games and keep those scoring at least `0.5`. The
`try/except` around the scorer is dead code in this model because the
scorer is total. -/
def buildRecs (features : Features) (tags : List String) (games : List Game) :
    List ScoredRec :=
  (games.take 10).filterMap fun g =>
    let score := calculate_similarity_score (scoreViewOf g) features tags
    if score ≥ 0.5 then
      some { game_id := g.id, name := g.name, score := score, rating := g.rating,
             image := g.image_url }
    else none

/-- Stable insertion for descending sort: `x` goes after every earlier
element whose score is `≥ x.score` (Python `list.sort(reverse=True)` is
stable). -/
def insertDesc (x : ScoredRec) : List ScoredRec → List ScoredRec
  | [] => [x]
  | y :: ys => if y.score ≥ x.score then y :: insertDesc x ys else x :: y :: ys

/-- Stable descending sort by score. -/
def sortDesc (l : List ScoredRec) : List ScoredRec :=
  l.foldl (fun acc x => insertDesc x acc) []

/-- The game-saving loop (step "7. Save Llama-generated games"): for each
top-5 entry, look up the full generated dict; `if not rawg_id` skips the
candidate (missing key or zero); otherwise an upsert is attempted
(`get_or_create_game`), and a raised per-candidate exception
(`env.saveOk = false`) is caught and skipped. -/
def saveStep (env : Env) (games : List Game) (r : ScoredRec) (st : St) : St :=
  match games.find? (fun g => g.id = r.game_id) with
  | none => st
  | some g =>
    match g.rawg_id with
    | none => st
    | some rid =>
      if rid = 0 then st
      else
        let st1 := { st with attempts := st.attempts ++ [rid] }
        if st1.savedGames.contains rid then st1
        else if env.saveOk rid then { st1 with savedGames := st1.savedGames ++ [rid] }
        else st1

def saveLoop (env : Env) (games : List Game) :
    List ScoredRec → St → St
  | [], st => st
  | r :: rest, st => saveLoop env games rest (saveStep env games r st)

/-- `RecommendationService.generate_recommendation` as a state machine.
On the cache-hit path the source persists a new row *before* loading the
book entity, and then dereferences `db_book.google_books_id` (raising
`AttributeError` if the book row is absent) and calls
`parse_book_data(book_data)` (raising `AttributeError` if the provider
returned `None`). On the miss path the errors are the source's
`ValueError`s. An uncaught exception leaves all previously committed
writes in place (each CRUD call commits independently). -/
def generate_recommendation (env : Env) (user_id book_id : Nat) (st : St) :
    Except Err RecResult × St :=
  let cache_key := cacheKeyFor book_id
  match cacheLookup st.cache cache_key with
  | some cached =>
    let row : RecRow :=
      { user_id := user_id, book_id := book_id,
        games := cached.games_json, ai_generated := cached.ai_generated,
        similarity_score := some cached.similarity_score,
        processing_time_ms := some cached.processing_time_ms }
    let st1 := { st with recs := st.recs ++ [row] }
    match env.books book_id with
    | none => (.error .attributeError, st1)
    | some db_book =>
      match env.google db_book.google_books_id with
      | none => (.error .attributeError, st1)
      | some bd =>
        (.ok { recommendation := row, book_data := parse_book_data bd,
                games := cached.games }, st1)
  | none =>
    match env.books book_id with
    | none => (.error (.bookNotFoundLocal book_id), st)
    | some db_book =>
      match env.google db_book.google_books_id with
      | none => (.error (.bookNotFoundProvider db_book.google_books_id), st)
      | some book_data =>
        let parsed_book := parse_book_data book_data
        let book_features := extract_book_features book_data
        let tags := map_genres_to_tags book_features
        match search_similar_games env tags book_features.title
            book_features.description 5 with
        | .error e => (.error e, st)
        | .ok games =>
          let game_recommendations := (sortDesc (buildRecs book_features tags games)).take 5
          if game_recommendations.isEmpty then (.error .noSuitableGames, st)
          else
            let avg_score := (game_recommendations.map (·.score)).sum /
              (game_recommendations.length : ℚ)
            let st2 := saveLoop env games game_recommendations st
            let games_json := game_recommendations.map fun g => (g.game_id, g.score)
            let row : RecRow :=
              { user_id := user_id, book_id := db_book.id,
                games := games_json, ai_generated := true,
                similarity_score := some (pyRound2 avg_score),
                processing_time_ms := some env.elapsedMs }
            let st3 := { st2 with recs := st2.recs ++ [row] }
            let cval : CacheVal :=
              { games := game_recommendations,
                games_json := games_json, ai_generated := true,
                similarity_score := pyRound2 avg_score,
                processing_time_ms := env.elapsedMs, tags_used := tags }
            let st4 := if env.cacheSetOk then
                { st3 with cache := cacheInsert st3.cache cache_key cval }
              else st3
            (.ok { recommendation := row, book_data := parsed_book,
                   games := game_recommendations }, st4)

/-! ## `CacheService` (`app/services/cache_service.py`) -/

/-- The Redis client as an oracle: every operation may raise (`.error ()`
models a raised `RedisError`). -/
structure RedisBackend where
  get : String → Except Unit (Option String)
  setex : String → Nat → String → Except Unit Unit
  del : String → Except Unit Unit
  expire : String → Nat → Except Unit Unit

/-- The mutable state of `CacheService`: availability (decided in
`__init__`) and the hit/miss counters. -/
structure CacheServiceSt where
  available : Bool
  hits : Nat
  misses : Nat
deriving Repr, DecidableEq

/-- `CacheService.get`. `dec` models `json.loads` (`none` = raised
`JSONDecodeError`). Note the source increments `hits` *before* decoding,
so a decode failure increments both counters. -/
def cache_get {V : Type} (be : RedisBackend) (dec : String → Option V)
    (svc : CacheServiceSt) (key : String) : Option V × CacheServiceSt :=
  if ¬ svc.available then (none, { svc with misses := svc.misses + 1 })
  else
    match be.get key with
    | .error _ => (none, { svc with misses := svc.misses + 1 })
    | .ok none => (none, { svc with misses := svc.misses + 1 })
    | .ok (some value) =>
      match dec value with
      | some v => (some v, { svc with hits := svc.hits + 1 })
      | none => (none, { svc with hits := svc.hits + 1, misses := svc.misses + 1 })

/-- `CacheService.set`. `enc` models `json.dumps` (`none` = raised
`TypeError`); `ttlDefault` models `settings.REDIS_CACHE_TTL`. -/
def cache_set {V : Type} (be : RedisBackend) (enc : V → Option String)
    (ttlDefault : Nat) (svc : CacheServiceSt) (key : String) (value : V)
    (ttl : Option Nat) : Bool × CacheServiceSt :=
  if ¬ svc.available then (false, svc)
  else
    match enc value with
    | none => (false, svc)
    | some s =>
      match be.setex key (ttl.getD ttlDefault) s with
      | .error _ => (false, svc)
      | .ok _ => (true, svc)

/-- `CacheService.delete`. -/
def cache_delete (be : RedisBackend) (svc : CacheServiceSt) (key : String) :
    Bool × CacheServiceSt :=
  if ¬ svc.available then (false, svc)
  else match be.del key with
    | .error _ => (false, svc)
    | .ok _ => (true, svc)

/-- `CacheService.expire`. -/
def cache_expire (be : RedisBackend) (svc : CacheServiceSt) (key : String)
    (ttl : Nat) : Bool × CacheServiceSt :=
  if ¬ svc.available then (false, svc)
  else match be.expire key ttl with
    | .error _ => (false, svc)
    | .ok _ => (true, svc)

/-! ## Claim theorems -/

/-- A concrete randomness oracle for witnesses: every fallback draw gives
rating `4.0` and year `2020` (inside the ranges `uniform(3.8, 4.9)` and
`randint(2015, 2024)` drawn by the source). -/
def rngConst : Nat → ℚ × Nat := fun _ => (4.0, 2020)

set_option maxHeartbeats 1000000 in
/-- C1: the derived game id is claimed to be strictly positive for every
name, but the name `"game384289"` has MD5 digest `000000067e...`, whose
first 7 hex characters are zero, so `_generate_unique_id` returns `0`
(contradicting the source's own comment and the range asserted by its
unit test). -/
theorem C1_generate_unique_id_zero_on_game384289 :
    generate_unique_id "game384289" = 0 := by decide

/-- A line is float-safe when, if it matches the structured pattern after
stripping, its `Rating` capture parses as a Python float. -/
def lineFloatSafe (line : List Char) : Bool :=
  match reMatchTop mainRE (pyStrip line) with
  | none => true
  | some (_, caps) => (pyFloatDigitsDots (capGet caps 3)).isSome

/-- The parser loop succeeds (never raises) on a batch of float-safe lines. -/
theorem parseLines_isOk (rng : Nat → ℚ × Nat) (tags : List String) :
    ∀ (lines : List (List Char)) (k : Nat),
      (∀ l ∈ lines, lineFloatSafe l = true) →
      (parseLines rng tags lines k).isOk = true := by
  intro lines
  induction lines with
  | nil => intro k _; rfl
  | cons line rest ih =>
    intro k h
    have hline : lineFloatSafe line = true := h line (List.mem_cons_self _ _)
    have hrest : ∀ l ∈ rest, lineFloatSafe l = true :=
      fun l hl => h l (List.mem_cons_of_mem _ hl)
    simp only [parseLines]
    split
    · exact ih k hrest
    · split
      · exact ih k hrest
      · cases hm : reMatchTop mainRE (pyStrip line) with
        | none =>
          simp only
          split
          · exact ih k hrest
          · split
            · cases hn : reMatchTop nameRE (pyStrip (pyLstrip (pyStrip line) lstripChars)) with
              | none => exact ih k hrest
              | some m =>
                simp only
                split
                · cases hp : parseLines rng tags rest (k + 1) with
                  | error e => have := ih (k + 1) hrest; rw [hp] at this; exact this
                  | ok gs => rfl
                · exact ih k hrest
            · exact ih k hrest
        | some m =>
          obtain ⟨rest2, caps⟩ := m
          have hsome : (pyFloatDigitsDots (capGet caps 3)).isSome = true := by
            unfold lineFloatSafe at hline
            rw [hm] at hline
            exact hline
          obtain ⟨r, hr⟩ := Option.isSome_iff_exists.mp hsome
          dsimp only
          rw [hr]
          cases hp : parseLines rng tags rest k with
          | error e => have := ih k hrest; rw [hp] at this; exact this
          | ok gs => rfl

/-- C2: the claim says the parser never raises for arbitrary malformed
input, but on the line `1. Game (2020) - Rating: 4.5.5 - Genre: Action -
desc` the structured pattern matches with Rating capture `"4.5.5"`, and
`float("4.5.5")` raises `ValueError`; the parser propagates it. -/
theorem C2_counterexample :
    parse_structured_games rngConst
      "1. Game (2020) - Rating: 4.5.5 - Genre: Action - desc" ["fantasy"] =
      .error (.floatValueError "4.5.5") := by decide

/-- C2 (amended): the parser is total and never raises *provided* every
line whose stripped text matches the structured pattern has a Rating
capture that is a well-formed float; a malformed Rating field (such as
`4.5.5`) instead raises `ValueError`. -/
theorem C2_parser_total_on_float_safe_input (rng : Nat → ℚ × Nat)
    (s : String) (tags : List String)
    (h : ∀ l ∈ splitOnChar '\n' (pyStrip s.data), lineFloatSafe l = true) :
    (parse_structured_games rng s tags).isOk = true :=
  parseLines_isOk rng tags _ 0 h

/-- Witness for the amended C2 theorem at a concrete well-formed input. -/
theorem C2_witness :
    (parse_structured_games rngConst
      "1. Skyrim (2011) - Rating: 4.7/5 - Genre: RPG - Open world fantasy"
      ["fantasy"]).isOk = true :=
  C2_parser_total_on_float_safe_input rngConst _ ["fantasy"] (by decide)

/-- C3: the empty string indeed parses to no records, but the single line
`This is not a valid list` does *not* parse to the empty list: the
fallback branch synthesizes one candidate named by the whole line. -/
theorem C3_counterexample :
    parse_structured_games rngConst "This is not a valid list" ["fantasy"] ≠
      .ok [] := by decide

/-- C3 (amended): for every tag list and randomness oracle, parsing the
empty string yields `[]`, and parsing `This is not a valid list` yields
exactly one synthesized candidate whose name is the whole line. -/
theorem C3_empty_and_invalid_line (rng : Nat → ℚ × Nat) (tags : List String) :
    parse_structured_games rng "" tags = .ok [] ∧
    (parse_structured_games rng "This is not a valid list" tags).map
      (fun gs => gs.map Game.name) = .ok ["This is not a valid list"] := by
  exact ⟨rfl, rfl⟩

/-! ### C4: score bounds -/

theorem le_roundHalfEven {n : ℤ} {q : ℚ} (h : (n : ℚ) ≤ q) : n ≤ roundHalfEven q := by
  unfold roundHalfEven
  have hf : n ≤ Int.floor q := Int.le_floor.mpr h
  split_ifs <;> omega

theorem roundHalfEven_le {n : ℤ} {q : ℚ} (h : q ≤ (n : ℚ)) : roundHalfEven q ≤ n := by
  unfold roundHalfEven
  have hf : Int.floor q ≤ n := by
    have h2 := Int.floor_le_floor h
    simpa using h2
  have hfl := Int.floor_le q
  split_ifs with h1 h2 h3
  · exact hf
  · have hlt : (Int.floor q : ℚ) < (n : ℚ) := by linarith
    have : Int.floor q < n := by exact_mod_cast hlt
    omega
  · exact hf
  · have heq : q - (Int.floor q : ℚ) = 1/2 := le_antisymm (not_lt.mp h2) (not_lt.mp h1)
    have hlt : (Int.floor q : ℚ) < (n : ℚ) := by linarith
    have : Int.floor q < n := by exact_mod_cast hlt
    omega

theorem pyRound2_nonneg {q : ℚ} (h : 0 ≤ q) : 0 ≤ pyRound2 q := by
  unfold pyRound2
  have h0 : ((0 : ℤ) : ℚ) ≤ q * 100 := by push_cast; nlinarith
  have := le_roundHalfEven h0
  have hc : (0 : ℚ) ≤ (roundHalfEven (q * 100) : ℚ) := by exact_mod_cast this
  positivity

theorem pyRound2_le_one {q : ℚ} (h : q ≤ 1) : pyRound2 q ≤ 1 := by
  unfold pyRound2
  have h100 : q * 100 ≤ ((100 : ℤ) : ℚ) := by push_cast; nlinarith
  have := roundHalfEven_le h100
  rw [div_le_one (by norm_num : (0 : ℚ) < 100)]
  exact_mod_cast this

/-- The rating term of the spec's weighted sum. -/
def ratingTerm (game : ScoreGame) : ℚ :=
  if game.rating.getD 0 > 0 then game.rating.getD 0 / 5 * 0.3 else 0

/-- The tag-overlap term of the spec's weighted sum. -/
def tagOverlapTerm (game : ScoreGame) (matched_tags : List String) : ℚ :=
  if matched_tags ≠ [] ∧ matched_tags.length > 0 then
    min (((matched_tags.filter
        (fun t => (gameTagsOf game.tags).contains t)).length : ℚ) /
      (matched_tags.length : ℚ)) 1 * 0.5
  else 0

/-- The metacritic (popularity) term of the spec's weighted sum. -/
def popularityTerm (game : ScoreGame) : ℚ :=
  if game.metacritic.getD 0 > 0 then
    min ((game.metacritic.getD 0 : ℚ) / 100) 1 * 0.2
  else 0

theorem ratingTerm_nonneg (game : ScoreGame) : 0 ≤ ratingTerm game := by
  unfold ratingTerm
  split_ifs with h
  · have h0 : (0 : ℚ) ≤ game.rating.getD 0 := le_of_lt h
    nlinarith
  · exact le_refl 0

theorem tagOverlapTerm_nonneg (game : ScoreGame) (matched_tags : List String) :
    0 ≤ tagOverlapTerm game matched_tags := by
  unfold tagOverlapTerm
  split_ifs with h
  · have hd : (0 : ℚ) ≤
        ((matched_tags.filter (fun t => (gameTagsOf game.tags).contains t)).length : ℚ) /
          (matched_tags.length : ℚ) := by positivity
    have := le_min hd (zero_le_one (α := ℚ))
    nlinarith
  · exact le_refl 0

theorem popularityTerm_nonneg (game : ScoreGame) : 0 ≤ popularityTerm game := by
  unfold popularityTerm
  split_ifs with h
  · have h0 : (0 : ℚ) ≤ (game.metacritic.getD 0 : ℚ) := by exact_mod_cast le_of_lt h
    have hd : (0 : ℚ) ≤ (game.metacritic.getD 0 : ℚ) / 100 := by positivity
    have := le_min hd (zero_le_one (α := ℚ))
    nlinarith
  · exact le_refl 0

/-- C4: for every game record (null, string- or list-valued tags, zero
values included), book features and matched tags, the similarity score is
total, equals the rounded clamped weighted sum of the rating, tag-overlap
and metacritic terms, and lies in `[0, 1]`. -/
theorem C4_score_in_unit_interval_and_decomposes (game : ScoreGame)
    (book_features : Features) (matched_tags : List String) :
    0 ≤ calculate_similarity_score game book_features matched_tags ∧
    calculate_similarity_score game book_features matched_tags ≤ 1 ∧
    calculate_similarity_score game book_features matched_tags =
      pyRound2 (min (ratingTerm game + tagOverlapTerm game matched_tags +
        popularityTerm game) 1) := by
  have hEq : calculate_similarity_score game book_features matched_tags =
      pyRound2 (min (ratingTerm game + tagOverlapTerm game matched_tags +
        popularityTerm game) 1) := by
    unfold calculate_similarity_score ratingTerm tagOverlapTerm popularityTerm
    dsimp only
    split_ifs <;>
      refine congrArg pyRound2 (congrArg (fun x => min x 1) ?_) <;> ring
  have hsum : 0 ≤ ratingTerm game + tagOverlapTerm game matched_tags +
      popularityTerm game :=
    add_nonneg (add_nonneg (ratingTerm_nonneg game)
      (tagOverlapTerm_nonneg game matched_tags)) (popularityTerm_nonneg game)
  refine ⟨?_, ?_, hEq⟩
  · rw [hEq]
    exact pyRound2_nonneg (le_min hsum zero_le_one)
  · rw [hEq]
    exact pyRound2_le_one (min_le_right _ _)

/-! ### C5: candidate generator count contract -/

theorem generate_with_llama_length_le (llm : Option String) (rng : Nat → ℚ × Nat)
    (tags : List String) (count : Nat) (gs : List Game)
    (h : generate_with_llama llm rng tags count = .ok gs) : gs.length ≤ count := by
  unfold generate_with_llama at h
  cases llm with
  | none => exact absurd h (by simp)
  | some s =>
    dsimp only at h
    by_cases hs : s = ""
    · rw [if_pos hs] at h; exact absurd h (by simp)
    · rw [if_neg hs] at h
      cases hp : parse_structured_games rng s tags with
      | error e => rw [hp] at h; exact absurd h (by simp)
      | ok gs2 =>
        rw [hp] at h
        cases gs2 with
        | nil => exact absurd h (by simp)
        | cons g rest =>
          cases h
          simpa using List.length_take_le count (g :: rest)

/-- C5: `generate_games` either returns exactly `count` games or raises;
an empty (or `None`) LLM response, zero parsed records, and fewer parsed
records than `count` all end in a raised `ValueError`, never a silently
short result. -/
theorem C5_exact_count_or_error (llm : Option String) (rng : Nat → ℚ × Nat)
    (tags : List String) (book_title book_description : String) (count : Nat) :
    (∀ l, generate_games llm rng tags book_title book_description count = .ok l →
      l.length = count) ∧
    (llm = none ∨ llm = some "" →
      generate_games llm rng tags book_title book_description count =
        .error .emptyLlamaResponse) ∧
    (∀ s, llm = some s → s ≠ "" → parse_structured_games rng s tags = .ok [] →
      generate_games llm rng tags book_title book_description count =
        .error .parseFailure) ∧
    (∀ s, llm = some s → s ≠ "" →
      (match parse_structured_games rng s tags with
       | .ok gs => gs.length < count
       | .error _ => False) →
      (generate_games llm rng tags book_title book_description count).isOk = false) := by
  refine ⟨?_, ?_, ?_, ?_⟩
  · intro l hl
    unfold generate_games at hl
    cases hw : generate_with_llama llm rng tags count with
    | error e => rw [hw] at hl; exact absurd hl (by simp)
    | ok games =>
      rw [hw] at hl
      dsimp only at hl
      by_cases hc : games.length = 0 ∨ games.length < count
      · rw [if_pos hc] at hl; exact absurd hl (by simp)
      · rw [if_neg hc] at hl
        cases hl
        have hle := generate_with_llama_length_le llm rng tags count l hw
        push_neg at hc
        omega
  · rintro (h | h) <;> subst h <;> rfl
  · intro s hs hne hp
    subst hs
    simp [generate_games, generate_with_llama, hne, hp]
  · intro s hs hne hmatch
    subst hs
    cases hp : parse_structured_games rng s tags with
    | error e =>
      rw [hp] at hmatch
      exact hmatch.elim
    | ok gs =>
      rw [hp] at hmatch
      dsimp only at hmatch
      unfold generate_games generate_with_llama
      dsimp only
      rw [if_neg hne, hp]
      cases gs with
      | nil => rfl
      | cons g rest =>
        dsimp only
        have hcond : ((g :: rest).take count).length = 0 ∨
            ((g :: rest).take count).length < count := by
          simp only [List.length_take, List.length_cons]
          simp only [List.length_cons] at hmatch
          omega
        rw [if_pos hcond]
        rfl

/-- Witness for C5: a `None` LLM response raises the empty-response error. -/
theorem C5_witness :
    generate_games none rngConst ["fantasy"] "Test" "Test" 5 =
      .error .emptyLlamaResponse :=
  (C5_exact_count_or_error none rngConst ["fantasy"] "Test" "Test" 5).2.1 (Or.inl rfl)

/-! ### C9: tag mapper -/

theorem pyDedupAux_spec : ∀ (xs seen : List String),
    (pyDedupAux xs seen).Nodup ∧ ∀ a ∈ pyDedupAux xs seen, a ∉ seen := by
  intro xs
  induction xs with
  | nil => intro seen; exact ⟨List.nodup_nil, by simp [pyDedupAux]⟩
  | cons x xs ih =>
    intro seen
    by_cases hx : x ∈ seen
    · constructor
      · simpa [pyDedupAux, hx] using (ih seen).1
      · intro a ha
        simp only [pyDedupAux] at ha
        rw [if_pos (by simpa using hx)] at ha
        exact (ih seen).2 a ha
    · obtain ⟨hnd, hmem⟩ := ih (x :: seen)
      constructor
      · simp only [pyDedupAux]
        rw [if_neg (by simpa using hx)]
        refine List.nodup_cons.mpr ⟨fun hin => ?_, hnd⟩
        exact (hmem x hin) (List.mem_cons_self x seen)
      · intro a ha
        simp only [pyDedupAux] at ha
        rw [if_neg (by simpa using hx)] at ha
        rcases List.mem_cons.mp ha with rfl | ha2
        · exact hx
        · exact fun has => (hmem a ha2) (List.mem_cons_of_mem x has)

theorem pyDedup_nodup (xs : List String) : (pyDedup xs).Nodup :=
  (pyDedupAux_spec xs []).1

theorem pyDedup_ne_nil {xs : List String} (h : xs ≠ []) : pyDedup xs ≠ [] := by
  cases xs with
  | nil => exact absurd rfl h
  | cons x t => simp [pyDedup, pyDedupAux]

/-- `map_genres_to_tags` always has the shape: dedup of a nonempty list,
truncated to 10. -/
theorem map_genres_to_tags_shape (book_features : Features) :
    ∃ ts, map_genres_to_tags book_features = (pyDedup ts).take 10 ∧ ts ≠ [] := by
  unfold map_genres_to_tags
  dsimp only
  refine ⟨_, rfl, ?_⟩
  split_ifs <;> simp_all [List.isEmpty_iff]

/-- C9: for every book-features record the tag mapper returns between 1 and
10 tags with no duplicates, and two runs on equal features yield the same
tag set (order-insensitively). -/
theorem C9_tag_mapper_bounds_nodup_deterministic
    (features features2 : Features) (h : features2 = features) :
    1 ≤ (map_genres_to_tags features).length ∧
    (map_genres_to_tags features).length ≤ 10 ∧
    (map_genres_to_tags features).Nodup ∧
    (map_genres_to_tags features2).toFinset = (map_genres_to_tags features).toFinset := by
  subst h
  obtain ⟨ts, heq, hne⟩ := map_genres_to_tags_shape features2
  refine ⟨?_, ?_, ?_, rfl⟩
  · rw [heq]
    have hpos : 0 < (pyDedup ts).length := List.length_pos.mpr (pyDedup_ne_nil hne)
    simp only [List.length_take]
    omega
  · rw [heq]
    simp only [List.length_take]
    omega
  · rw [heq]
    exact (pyDedup_nodup ts).sublist (List.take_sublist 10 (pyDedup ts))

/-- Witness for C9 at the empty book-features record. -/
theorem C9_witness :
    1 ≤ (map_genres_to_tags
      { title := "", authors := [], description := "", categories := [],
        published_year := none, language := "en", page_count := none }).length ∧
    (map_genres_to_tags
      { title := "", authors := [], description := "", categories := [],
        published_year := none, language := "en", page_count := none }).length ≤ 10 ∧
    (map_genres_to_tags
      { title := "", authors := [], description := "", categories := [],
        published_year := none, language := "en", page_count := none }).Nodup ∧
    (map_genres_to_tags
      { title := "", authors := [], description := "", categories := [],
        published_year := none, language := "en", page_count := none }).toFinset =
    (map_genres_to_tags
      { title := "", authors := [], description := "", categories := [],
        published_year := none, language := "en", page_count := none }).toFinset :=
  C9_tag_mapper_bounds_nodup_deterministic _ _ rfl

/-! ### C10: cache fail-open -/

/-- C10: when the cache service marked the backend unavailable, or every
backend operation raises, `get` is a miss, and `set`, `delete`, `expire`
return `False`; no backend error propagates (the operations are total). -/
theorem C10_cache_fail_open {V : Type} (be : RedisBackend) (dec : String → Option V)
    (enc : V → Option String) (ttlDefault : Nat) (svc : CacheServiceSt)
    (key : String) (value : V) (ttl : Option Nat) (newTtl : Nat)
    (h : svc.available = false ∨
      ((∀ k, be.get k = .error ()) ∧ (∀ k t s, be.setex k t s = .error ()) ∧
       (∀ k, be.del k = .error ()) ∧ (∀ k t, be.expire k t = .error ()))) :
    (cache_get be dec svc key).1 = none ∧
    (cache_set be enc ttlDefault svc key value ttl).1 = false ∧
    (cache_delete be svc key).1 = false ∧
    (cache_expire be svc key newTtl).1 = false := by
  rcases h with h | ⟨hg, hs, hd, he⟩
  · refine ⟨?_, ?_, ?_, ?_⟩ <;>
      simp [cache_get, cache_set, cache_delete, cache_expire, h]
  · by_cases ha : svc.available
    · refine ⟨?_, ?_, ?_, ?_⟩
      · simp [cache_get, ha, hg]
      · cases henc : enc value with
        | none => simp [cache_set, ha, henc]
        | some s => simp [cache_set, ha, henc, hs]
      · simp [cache_delete, ha, hd]
      · simp [cache_expire, ha, he]
    · refine ⟨?_, ?_, ?_, ?_⟩ <;>
        simp [cache_get, cache_set, cache_delete, cache_expire, ha]

/-- A backend on which every operation raises. -/
def erroringBackend : RedisBackend :=
  { get := fun _ => .error (), setex := fun _ _ _ => .error (),
    del := fun _ => .error (), expire := fun _ _ => .error () }

/-- Witness for C10: a concrete always-erroring backend with the service
marked available. -/
theorem C10_witness :
    (cache_get erroringBackend (fun s => some s) ⟨true, 0, 0⟩ "k").1 = none ∧
    (cache_set erroringBackend (fun s => some s) 86400 ⟨true, 0, 0⟩ "k" "v" none).1 = false ∧
    (cache_delete erroringBackend ⟨true, 0, 0⟩ "k").1 = false ∧
    (cache_expire erroringBackend ⟨true, 0, 0⟩ "k" 60).1 = false :=
  C10_cache_fail_open erroringBackend (fun s => some s) (fun s => some s) 86400
    ⟨true, 0, 0⟩ "k" "v" none 60
    (Or.inr ⟨fun _ => rfl, fun _ _ _ => rfl, fun _ => rfl, fun _ _ => rfl⟩)

/-! ### C6, C7, C8: orchestrator -/

/-- Decidable form of "generation succeeded and every generated candidate
scores below the `0.5` threshold". -/
def allBelowThreshold (env : Env) (features : Features) (tags : List String) : Bool :=
  match search_similar_games env tags features.title features.description 5 with
  | .error _ => false
  | .ok games => (games.take 10).all fun g =>
      decide (calculate_similarity_score (scoreViewOf g) features tags < 0.5)

theorem buildRecs_nil (features : Features) (tags : List String) (games : List Game)
    (h : ∀ g ∈ games.take 10,
      calculate_similarity_score (scoreViewOf g) features tags < 0.5) :
    buildRecs features tags games = [] := by
  unfold buildRecs
  apply List.filterMap_eq_nil.mpr
  intro g hg
  dsimp only
  rw [if_neg (not_le.mpr (h g hg))]

theorem saveStep_recs (env : Env) (games : List Game) (r : ScoredRec) (st : St) :
    (saveStep env games r st).recs = st.recs := by
  unfold saveStep
  split
  · rfl
  · split
    · rfl
    · dsimp only
      split_ifs <;> rfl

theorem saveStep_attempts_mono (env : Env) (games : List Game) (r : ScoredRec)
    (st : St) (a : Nat) (ha : a ∈ st.attempts) :
    a ∈ (saveStep env games r st).attempts := by
  unfold saveStep
  split
  · exact ha
  · split
    · exact ha
    · dsimp only
      split_ifs <;> simp [ha]

theorem saveStep_attempted (env : Env) (games : List Game) (r : ScoredRec)
    (st : St) (g : Game)
    (hg : games.find? (fun g2 => g2.id = r.game_id) = some g)
    (rid : Nat) (hrid : g.rawg_id = some rid) (h0 : rid ≠ 0) :
    rid ∈ (saveStep env games r st).attempts := by
  simp only [saveStep, hg, hrid]
  rw [if_neg h0]
  split_ifs <;> simp

theorem saveLoop_recs (env : Env) (games : List Game) :
    ∀ (l : List ScoredRec) (st : St), (saveLoop env games l st).recs = st.recs := by
  intro l
  induction l with
  | nil => intro st; rfl
  | cons r rest ih =>
    intro st
    simp only [saveLoop]
    exact (ih _).trans (saveStep_recs env games r st)

theorem saveLoop_attempts_mono (env : Env) (games : List Game) :
    ∀ (l : List ScoredRec) (st : St) (a : Nat),
      a ∈ st.attempts → a ∈ (saveLoop env games l st).attempts := by
  intro l
  induction l with
  | nil => intro st a ha; exact ha
  | cons r rest ih =>
    intro st a ha
    simp only [saveLoop]
    exact ih _ a (saveStep_attempts_mono env games r st a ha)

theorem saveLoop_attempted (env : Env) (games : List Game) :
    ∀ (l : List ScoredRec) (st : St) (r : ScoredRec), r ∈ l →
      ∀ g, games.find? (fun g2 => g2.id = r.game_id) = some g →
      ∀ rid, g.rawg_id = some rid → rid ≠ 0 →
      rid ∈ (saveLoop env games l st).attempts := by
  intro l
  induction l with
  | nil => intro st r hr; exact absurd hr (List.not_mem_nil r)
  | cons r2 rest ih =>
    intro st r hr g hg rid hrid h0
    rcases List.mem_cons.mp hr with rfl | hr2
    · simp only [saveLoop]
      exact saveLoop_attempts_mono env games rest _ rid
        (saveStep_attempted env games r st g hg rid hrid h0)
    · simp only [saveLoop]
      exact ih _ r hr2 g hg rid hrid h0

/-- C6: on a cache miss, when generation succeeds but every candidate
scores below the `0.5` threshold, the orchestrator raises the descriptive
"no suitable games" error and the state is completely unchanged: no
Recommendation row, no game upsert, no cache write. -/
theorem C6_no_suitable_games_state_unchanged (env : Env) (st : St)
    (user_id book_id : Nat) (db_book : BookRow) (book_data : BookData)
    (h1 : cacheLookup st.cache (cacheKeyFor book_id) = none)
    (h2 : env.books book_id = some db_book)
    (h3 : env.google db_book.google_books_id = some book_data)
    (h4 : allBelowThreshold env (extract_book_features book_data)
      (map_genres_to_tags (extract_book_features book_data)) = true) :
    generate_recommendation env user_id book_id st =
      (.error .noSuitableGames, st) := by
  cases hs : search_similar_games env
      (map_genres_to_tags (extract_book_features book_data))
      (extract_book_features book_data).title
      (extract_book_features book_data).description 5 with
  | error e =>
    exfalso
    unfold allBelowThreshold at h4
    rw [hs] at h4
    exact absurd h4 (by simp)
  | ok games =>
    have hall : ∀ g ∈ games.take 10,
        calculate_similarity_score (scoreViewOf g) (extract_book_features book_data)
          (map_genres_to_tags (extract_book_features book_data)) < 0.5 := by
      unfold allBelowThreshold at h4
      rw [hs] at h4
      intro g hg
      exact of_decide_eq_true (List.all_eq_true.mp h4 g hg)
    have hnil := buildRecs_nil _ _ _ hall
    simp only [generate_recommendation, h1, h2, h3, hs, hnil, sortDesc,
      List.foldl_nil, List.take_nil, List.isEmpty_nil, if_true]

/-- Book data used by the C6 witness: two categories giving 8 distinct
tags, so that a structured candidate carrying only the first 5 tags has
tag overlap `5/8` and score `0.31 < 0.5`. -/
def bdC6 : BookData :=
  { id := some "gb1",
    volumeInfo :=
      { title := some "T", authors := some ["A"], description := some "D",
        categories := some ["Fantasy", "Science Fiction"],
        publishedDate := some "2001", language := some "en",
        pageCount := some 100 } }

/-- An LLM response of five structured lines, each with rating `0.0` (so
the rating and metacritic terms vanish and every score is `0.31`). -/
def llmC6 : String :=
  "1. Alpha One (2020) - Rating: 0.0/5 - Genre: Action - first game\n2. Beta Two (2020) - Rating: 0.0/5 - Genre: Action - second game\n3. Gamma Three (2020) - Rating: 0.0/5 - Genre: Action - third game\n4. Delta Four (2020) - Rating: 0.0/5 - Genre: Action - fourth game\n5. Epsilon Five (2020) - Rating: 0.0/5 - Genre: Action - fifth game"

def envC6 : Env :=
  { books := fun n => if n = 1 then some { id := 1, google_books_id := "gb1" } else none,
    google := fun gid => if gid = "gb1" then some bdC6 else none,
    llm := some llmC6, rng := rngConst, saveOk := fun _ => true,
    cacheSetOk := true, elapsedMs := 42 }

def stC6 : St := { recs := [], attempts := [], savedGames := [], cache := [] }

set_option maxHeartbeats 4000000 in
/-- Witness for C6 at a concrete environment where all five generated
candidates score `0.31`. -/
theorem C6_witness :
    generate_recommendation envC6 1 1 stC6 = (.error .noSuitableGames, stC6) :=
  C6_no_suitable_games_state_unchanged envC6 stC6 1 1
    { id := 1, google_books_id := "gb1" } bdC6 rfl rfl rfl (by decide)

/-- C7 (amended): on a cache *miss*, a book id with no local row makes the
orchestrator fail with the NotFound `ValueError` and leaves the state
unchanged. (On a cache *hit* the source persists a row first and then
raises `AttributeError`; see the counterexample.) -/
theorem C7_cache_miss_book_absent_not_found (env : Env) (st : St)
    (user_id book_id : Nat)
    (h1 : cacheLookup st.cache (cacheKeyFor book_id) = none)
    (h2 : env.books book_id = none) :
    generate_recommendation env user_id book_id st =
      (.error (.bookNotFoundLocal book_id), st) := by
  simp only [generate_recommendation, h1, h2]

def cvalC7 : CacheVal :=
  { games := [], games_json := [], ai_generated := true,
    similarity_score := 0.9, processing_time_ms := 10,
    tags_used := ["fantasy"] }

def envC7 : Env :=
  { books := fun _ => none, google := fun _ => none, llm := none,
    rng := rngConst, saveOk := fun _ => true, cacheSetOk := true,
    elapsedMs := 0 }

def stC7 : St :=
  { recs := [], attempts := [], savedGames := [],
    cache := [(cacheKeyFor 7, cvalC7)] }

/-- C7 counterexample: with the recommendation cache holding an entry for
book 7 while the book row is absent, the call persists a Recommendation
row from the cached payload and then raises `AttributeError`
(`db_book.google_books_id` on `None`) — not the NotFound error, and not
with an unchanged database. -/
theorem C7_counterexample :
    (generate_recommendation envC7 1 7 stC7).1 = .error .attributeError ∧
    (generate_recommendation envC7 1 7 stC7).2.recs ≠ [] := by
  constructor
  · rfl
  · decide

/-- Witness for the amended C7 theorem at a concrete empty state. -/
theorem C7_witness :
    generate_recommendation envC7 1 7
      { recs := [], attempts := [], savedGames := [], cache := [] } =
    (.error (.bookNotFoundLocal 7),
      { recs := [], attempts := [], savedGames := [], cache := [] }) :=
  C7_cache_miss_book_absent_not_found envC7
    { recs := [], attempts := [], savedGames := [], cache := [] } 1 7 rfl rfl

set_option maxHeartbeats 2000000 in
/-- C8 (amended): on a cache miss with a successful generation and a
nonempty top-5 list, the orchestrator succeeds and persists exactly one
new Recommendation row regardless of per-candidate persistence failures
(`env.saveOk` is arbitrary), and a Game upsert is attempted for every
top-5 candidate whose generated dict carries a (nonzero) `rawg_id`, i.e.
for every candidate built by the structured-data constructor. Candidates
built by the name-only fallback constructor carry no `rawg_id` and are
skipped (see the counterexample). -/
theorem C8_structured_top5_upserts_attempted (env : Env) (st : St)
    (user_id book_id : Nat) (db_book : BookRow) (book_data : BookData)
    (games : List Game)
    (h1 : cacheLookup st.cache (cacheKeyFor book_id) = none)
    (h2 : env.books book_id = some db_book)
    (h3 : env.google db_book.google_books_id = some book_data)
    (h4 : search_similar_games env
      (map_genres_to_tags (extract_book_features book_data))
      (extract_book_features book_data).title
      (extract_book_features book_data).description 5 = .ok games)
    (h5 : (sortDesc (buildRecs (extract_book_features book_data)
      (map_genres_to_tags (extract_book_features book_data)) games)).take 5 ≠ []) :
    (generate_recommendation env user_id book_id st).1.isOk = true ∧
    (generate_recommendation env user_id book_id st).2.recs.length =
      st.recs.length + 1 ∧
    ∀ r ∈ (sortDesc (buildRecs (extract_book_features book_data)
        (map_genres_to_tags (extract_book_features book_data)) games)).take 5,
      ∀ g, games.find? (fun g2 => g2.id = r.game_id) = some g →
      ∀ rid, g.rawg_id = some rid → rid ≠ 0 →
      rid ∈ (generate_recommendation env user_id book_id st).2.attempts := by
  have hcond : ¬ ((sortDesc (buildRecs (extract_book_features book_data)
      (map_genres_to_tags (extract_book_features book_data)) games)).take 5).isEmpty = true := by
    simpa [List.isEmpty_iff] using h5
  simp only [generate_recommendation, h1, h2, h3, h4]
  rw [if_neg hcond]
  refine ⟨rfl, ?_, ?_⟩
  · split_ifs <;>
      simp [saveLoop_recs]
  · intro r hr g hg rid hrid h0
    have hmem := saveLoop_attempted env games _ st r hr g hg rid hrid h0
    split_ifs <;> simpa using hmem

/-- Book data used by the C8 scenario: one category giving 4 tags, so every
candidate (which carries all 4 tags) has full tag overlap and scores `0.9`. -/
def bdC8 : BookData :=
  { id := some "gb1",
    volumeInfo :=
      { title := some "T", authors := some ["A"], description := some "D",
        categories := some ["Fantasy"], publishedDate := some "2001",
        language := some "en", pageCount := some 100 } }

/-- An LLM response of four structured lines plus one name-only line
(`Megaquest Adventures`), which the parser turns into a fallback candidate
without a `rawg_id`. -/
def llmC8 : String :=
  "1. Alpha One (2020) - Rating: 4.0/5 - Genre: RPG - first game\n2. Beta Two (2020) - Rating: 4.0/5 - Genre: RPG - second game\n3. Gamma Three (2020) - Rating: 4.0/5 - Genre: RPG - third game\n4. Delta Four (2020) - Rating: 4.0/5 - Genre: RPG - fourth game\nMegaquest Adventures"

def envC8 : Env :=
  { books := fun n => if n = 1 then some { id := 1, google_books_id := "gb1" } else none,
    google := fun gid => if gid = "gb1" then some bdC8 else none,
    llm := some llmC8, rng := rngConst, saveOk := fun _ => true,
    cacheSetOk := true, elapsedMs := 42 }

def stC8 : St := { recs := [], attempts := [], savedGames := [], cache := [] }

/-- The candidate list generated in the C8 scenario. -/
def gamesC8 : List Game :=
  match search_similar_games envC8
      (map_genres_to_tags (extract_book_features bdC8))
      (extract_book_features bdC8).title
      (extract_book_features bdC8).description 5 with
  | .ok gs => gs
  | .error _ => []

def dummyRow : RecRow :=
  { user_id := 0, book_id := 0, games := [], ai_generated := false,
    similarity_score := none, processing_time_ms := none }

set_option maxHeartbeats 4000000 in
/-- Witness for the amended C8 theorem at the concrete C8 scenario. -/
theorem C8_witness :
    (generate_recommendation envC8 1 1 stC8).1.isOk = true ∧
    (generate_recommendation envC8 1 1 stC8).2.recs.length =
      stC8.recs.length + 1 := by
  have h := C8_structured_top5_upserts_attempted envC8 stC8 1 1
    { id := 1, google_books_id := "gb1" } bdC8 gamesC8 rfl rfl rfl
    (by decide) (by decide)
  exact ⟨h.1, h.2.1⟩

set_option maxHeartbeats 4000000 in
/-- C8 counterexample: the fallback candidate `Megaquest Adventures` ends
up in the persisted top-5 list (its derived id appears in the new row's
games payload), yet no Game upsert is attempted for it — its dict has no
`rawg_id`, so the saving loop skips it. The claim's "regardless of which
parser constructor produced the candidate" is false. -/
theorem C8_counterexample :
    (generate_recommendation envC8 1 1 stC8).1.isOk = true ∧
    generate_unique_id "Megaquest Adventures" ∈
      (((generate_recommendation envC8 1 1 stC8).2.recs.getD 0 dummyRow).games.map
        Prod.fst) ∧
    generate_unique_id "Megaquest Adventures" ∉
      (generate_recommendation envC8 1 1 stC8).2.attempts := by
  refine ⟨by decide, by decide, by decide⟩
